import Mathlib

-- Verification of the contact-form backend (server.js): the POST
-- /submit-contact handler, the contact repository (saveContact), the
-- schema initializer (createTable) and the listen-port retry logic,
-- shallowly embedded in Lean.

namespace ContactServer

-- ## JavaScript value model
-- A parsed JSON body is a JavaScript value.  `undefined` stands for a
-- missing object property.

inductive JsValue where
  | undefined
  | null
  | bool (b : Bool)
  | num (n : Int)
  | str (s : String)
  | obj (fields : List (String × JsValue))

-- `String.prototype.trim()`: strip leading and trailing whitespace
-- (structural recursion over the character list so that concrete values
-- evaluate by kernel reduction).
def trimChars (cs : List Char) : List Char :=
  ((cs.dropWhile Char.isWhitespace).reverse.dropWhile Char.isWhitespace).reverse

def jsTrim (s : String) : String := ⟨trimChars s.data⟩

-- `String.prototype.toLowerCase()` (ASCII case folding).
def jsToLower (s : String) : String := ⟨s.data.map Char.toLower⟩

-- Property access `data.k` on an object (JSON objects from JSON.parse
-- have distinct keys); a missing key yields `undefined`.
def getF (fields : List (String × JsValue)) (k : String) : JsValue :=
  match fields.lookup k with
  | some v => v
  | none => JsValue.undefined

-- `const { name, email, phone, message } = data;`
-- Destructuring `null`/`undefined` throws a TypeError (modelled as
-- `Except.error`); on a non-object primitive every property is `undefined`.
def destructure (v : JsValue) : Except Unit (JsValue × JsValue × JsValue × JsValue) :=
  match v with
  | JsValue.null => Except.error ()
  | JsValue.undefined => Except.error ()
  | JsValue.obj fields =>
      Except.ok (getF fields "name", getF fields "email", getF fields "phone", getF fields "message")
  | _ => Except.ok (JsValue.undefined, JsValue.undefined, JsValue.undefined, JsValue.undefined)

-- `x?.trim()`: `none` when `x` is null/undefined (the optional chain
-- yields undefined), the trimmed string when `x` is a string, and a
-- thrown TypeError (`.trim is not a function`) otherwise.
def jsOptChainTrim : JsValue → Except Unit (Option String)
  | JsValue.undefined => Except.ok none
  | JsValue.null => Except.ok none
  | JsValue.str s => Except.ok (some (jsTrim s))
  | _ => Except.error ()

-- Truthiness of `!x?.trim()`: undefined is falsy, a string is falsy
-- exactly when empty.
def jsMissingAfterTrim : Option String → Bool
  | none => true
  | some s => s == ""

-- `!name?.trim() || !email?.trim() || !message?.trim()` with JavaScript
-- short-circuit evaluation; a TypeError thrown by any evaluated
-- `.trim()` propagates.
def requiredFieldsFail (name email message : JsValue) : Except Unit Bool :=
  match jsOptChainTrim name with
  | Except.error e => Except.error e
  | Except.ok n =>
    if jsMissingAfterTrim n then Except.ok true
    else
      match jsOptChainTrim email with
      | Except.error e => Except.error e
      | Except.ok em =>
        if jsMissingAfterTrim em then Except.ok true
        else
          match jsOptChainTrim message with
          | Except.error e => Except.error e
          | Except.ok m => Except.ok (jsMissingAfterTrim m)

-- ## The email regex  /^[^\s@]+@[^\s@]+\.[^\s@]+$/

-- A character admitted by the class [^\s@].
def okChar (c : Char) : Bool := !c.isWhitespace && c ≠ '@'

-- Split a character list at the first occurrence of `c`.
def splitAtChar (c : Char) : List Char → Option (List Char × List Char)
  | [] => none
  | x :: xs =>
    if x = c then some ([], xs)
    else
      match splitAtChar c xs with
      | none => none
      | some (l, r) => some (x :: l, r)

-- Whether `r` matches `[^\s@]+\.[^\s@]+` once all its characters are
-- known to be in the class: a '.' must appear at a position that is
-- neither the first nor the last.
def hasInnerDot : List Char → Bool
  | [] => false
  | _ :: rtail => decide ('.' ∈ rtail.dropLast)

-- `emailRegex.test(s)`: the anchored regex matches iff the string splits
-- at its first '@' into a non-empty all-[^\s@] local part and a tail
-- that is all-[^\s@] (hence contains no further '@') with an inner '.'.
def emailRegexTest (s : String) : Bool :=
  match splitAtChar '@' s.toList with
  | none => false
  | some (l, r) => !l.isEmpty && l.all okChar && r.all okChar && hasInnerDot r

-- ## The contact repository (saveContact)

-- `String.prototype.includes` (substring test).
def listIsInfix (pat : List Char) : List Char → Bool
  | [] => pat.isEmpty
  | c :: rest => pat.isPrefixOf (c :: rest) || listIsInfix pat rest

def strIncludes (s pat : String) : Bool := listIsInfix pat.toList s.toList

-- `error.constraint?.includes(pat)`: undefined constraint is falsy.
def optContains (c : Option String) (pat : String) : Bool :=
  match c with
  | some s => strIncludes s pat
  | none => false

structure ContactRow where
  id : Nat
  name : String
  email : String
  phone : Option String
  message : String
deriving DecidableEq

-- Modelled from the spec: the database table of stored submissions.  The
-- store assigns a positive integer id at insertion (serial primary key).
abbrev ContactStore := List ContactRow

structure SaveResult where
  status : String
  message : String
  id : Option Nat
deriving DecidableEq

-- Outcome of the INSERT query, decided by the external database: success,
-- a unique violation (code 23505) carrying an optional constraint name,
-- or any other error.
inductive DbOutcome where
  | ok
  | uniqueViolation (constraint : Option String)
  | otherError
deriving DecidableEq

-- `saveContact(name, email, phone, message)` from server.js lines 122-163:
-- insert and return the new id; a caught 23505 error is translated by
-- constraint-name substring into a field-specific message; any other
-- caught error yields the generic message.  The catch-all makes this a
-- total function: no outcome escapes as an exception.
def saveContact (db : DbOutcome) (store : ContactStore)
    (name email : String) (phone : Option String) (message : String) :
    SaveResult × ContactStore :=
  match db with
  | DbOutcome.ok =>
    let id := store.length + 1
    (⟨"success", "Thank you! Your message has been sent successfully.", some id⟩,
      store ++ [⟨id, name, email, phone, message⟩])
  | DbOutcome.uniqueViolation c =>
    if optContains c "email" then
      (⟨"error", "This email address has already been used. Please use a different email.", none⟩, store)
    else if optContains c "phone" then
      (⟨"error", "This phone number has already been used. Please use a different number.", none⟩, store)
    else
      (⟨"error", "Something went wrong while saving your contact. Please try again later.", none⟩, store)
  | DbOutcome.otherError =>
    (⟨"error", "Something went wrong while saving your contact. Please try again later.", none⟩, store)

-- ## The POST /submit-contact handler (server.js lines 219-287)

structure HttpResponse where
  httpStatus : Nat
  status : String
  message : String
  id : Option Nat
deriving DecidableEq

def serverError : HttpResponse :=
  ⟨500, "error", "Server error. Please try again later.", none⟩

def badRequest (msg : String) : HttpResponse :=
  ⟨400, "error", msg, none⟩

-- `phone?.trim() || null` once `phone?.trim()` evaluated to `pt`.
def jsPhoneArg : Option String → Option String
  | none => none
  | some p => if p = "" then none else some p

def asString : JsValue → String
  | JsValue.str s => s
  | _ => ""

structure PostResult where
  response : HttpResponse
  store : ContactStore
  dbCalled : Bool
deriving DecidableEq

-- The body of the callback registered for the request end event (server.js
-- line 226).  `body` is the buffered
-- request body; `parsed` is `some v` when `JSON.parse body` returns `v`
-- and `none` when it throws; `db` is the outcome the database gives the
-- INSERT; `store` the table contents.  Any exception inside the `try` is
-- caught by the outer handler and answered with the generic 500.
def handleSubmitContact (body : String) (parsed : Option JsValue)
    (db : DbOutcome) (store : ContactStore) : PostResult :=
  if jsTrim body = "" then
    ⟨badRequest "No data received. Please try again.", store, false⟩
  else
    match parsed with
    | none => ⟨serverError, store, false⟩
    | some data =>
      match destructure data with
      | Except.error _ => ⟨serverError, store, false⟩
      | Except.ok (name, email, phone, message) =>
        match requiredFieldsFail name email message with
        | Except.error _ => ⟨serverError, store, false⟩
        | Except.ok true =>
          ⟨badRequest "Name, email, and message are required fields.", store, false⟩
        | Except.ok false =>
          if !emailRegexTest (asString email) then
            ⟨badRequest "Please enter a valid email address.", store, false⟩
          else
            match jsOptChainTrim phone with
            | Except.error _ => ⟨serverError, store, false⟩
            | Except.ok pt =>
              let r := saveContact db store (jsTrim (asString name))
                (jsToLower (jsTrim (asString email))) (jsPhoneArg pt) (jsTrim (asString message))
              ⟨⟨200, r.1.status, r.1.message, r.1.id⟩, r.2, true⟩

-- ## The schema initializer (createTable, server.js lines 46-119)

-- Database schema state: the column list of the contacts table (none
-- when the table is absent) and the names of existing indexes.
structure DbState where
  table : Option (List String)
  indexes : List String
deriving DecidableEq

def expectedColumns : List String :=
  ["id", "name", "email", "phone", "message", "created_at"]

-- `checkTableStructure`: the information_schema query lists the columns
-- of the contacts table; an absent table yields no rows.
def checkTableStructure (s : DbState) : List String :=
  match s.table with
  | none => []
  | some cols => cols

-- `ALTER TABLE contacts ADD COLUMN created_at ...`: errors when the
-- table is missing or the column already exists.
def addCreatedAt (s : DbState) : Except Unit DbState :=
  match s.table with
  | none => Except.error ()
  | some cols =>
    if cols.contains "created_at" then Except.error ()
    else Except.ok { s with table := some (cols ++ ["created_at"]) }

-- `CREATE TABLE IF NOT EXISTS contacts (...)`.
def createTableIfNotExists (s : DbState) : DbState :=
  match s.table with
  | some _ => s
  | none => { s with table := some expectedColumns }

-- `CREATE INDEX IF NOT EXISTS name ON contacts(col)`, run inside its own
-- try/catch (server.js lines 98-110): an existing index is a no-op; when
-- the table or the indexed column is absent the statement errors and the
-- catch only logs it, so the state is unchanged and nothing escapes; the
-- index is created only when its column actually exists.
def createIndexIfNotExists (s : DbState) (name col : String) : DbState :=
  if s.indexes.contains name then s
  else
    match s.table with
    | none => s
    | some cols =>
      if cols.contains col then { s with indexes := s.indexes ++ [name] } else s

-- `createTable()`: check the columns; if the table exists without
-- created_at, add that column; otherwise create the table if absent;
-- then attempt both index creations (each in its own try/catch).  The
-- Bool records whether the outer catch fired (an error escaping a step
-- before the per-index try blocks).
def createTable (s : DbState) : DbState × Bool :=
  if !(checkTableStructure s).contains "created_at" &&
      decide (0 < (checkTableStructure s).length) then
    match addCreatedAt s with
    | Except.error _ => (s, true)
    | Except.ok s1 =>
      (createIndexIfNotExists (createIndexIfNotExists s1 "idx_contacts_email" "email")
        "idx_contacts_created_at" "created_at", false)
  else
    (createIndexIfNotExists (createIndexIfNotExists (createTableIfNotExists s)
      "idx_contacts_email" "email") "idx_contacts_created_at" "created_at", false)

-- ## The listen port (startServer, server.js lines 309-321)

-- A JavaScript port value: `process.env.PORT || 3000` is the string from
-- the environment when set and non-empty, else the number 3000.
inductive JsPort where
  | num (n : Nat)
  | str (s : String)
deriving DecidableEq

def configuredPort (env : Option String) : JsPort :=
  match env with
  | some s => if s = "" then JsPort.num 3000 else JsPort.str s
  | none => JsPort.num 3000

-- `PORT + 1`: numeric addition on a number, string concatenation on a
-- string (JavaScript `+` coerces the number 1 to "1").
def retryPort (env : Option String) : JsPort :=
  match configuredPort env with
  | JsPort.num n => JsPort.num (n + 1)
  | JsPort.str s => JsPort.str (s ++ "1")

-- Modelled from the spec: Node `server.listen(port)` coerces a string
-- port to a number (decimal digits); a non-numeric string is invalid.
def parsePort (s : String) : Option Nat :=
  if s.data ≠ [] ∧ s.data.all Char.isDigit then
    some (s.data.foldl (fun n c => n * 10 + (c.toNat - '0'.toNat)) 0)
  else none

def portNumber : JsPort → Option Nat
  | JsPort.num n => some n
  | JsPort.str s => parsePort s

-- The numeric port the retry attempt listens on.
def effectiveRetryPort (env : Option String) : Option Nat :=
  portNumber (retryPort env)

-- A field value that the validation chain can trim without throwing:
-- absent, null, or a string.
def stringish (v : JsValue) : Prop :=
  v = JsValue.undefined ∨ v = JsValue.null ∨ ∃ s, v = JsValue.str s

-- A field value that the validation chain treats as missing or blank.
def blankish (v : JsValue) : Prop :=
  v = JsValue.undefined ∨ v = JsValue.null ∨ ∃ s, v = JsValue.str s ∧ jsTrim s = ""

-- A value that is truthy in JavaScript but not a string: calling
-- `.trim()` on it throws.
def isTruthyNonString : JsValue → Bool
  | JsValue.bool b => b
  | JsValue.num n => n ≠ 0
  | JsValue.obj _ => true
  | _ => false

-- ## Concrete request payloads used as test inputs

def validFields : List (String × JsValue) :=
  [("name", JsValue.str "Jo"), ("email", JsValue.str "jo@example.com"),
   ("message", JsValue.str "hi")]

def sampleBody : String :=
  "\x7b\"name\":\"Jo\",\"email\":\"jo@example.com\",\"message\":\"hi\"\x7d"

-- name, email, message non-blank; the email matches the shape rule after
-- trimming but carries surrounding whitespace as submitted.
def paddedEmailFields : List (String × JsValue) :=
  [("name", JsValue.str "a"), ("email", JsValue.str " a@b.c "),
   ("message", JsValue.str "m")]

def paddedEmailBody : String :=
  "\x7b\"name\":\"a\",\"email\":\" a@b.c \",\"message\":\"m\"\x7d"

-- email missing while name holds a number.
def numberNameFields : List (String × JsValue) :=
  [("name", JsValue.num 5), ("message", JsValue.str "x")]

def numberNameBody : String := "\x7b\"name\":5,\"message\":\"x\"\x7d"

-- message holds a number while name is blank.
def blankNameNumberMessageFields : List (String × JsValue) :=
  [("name", JsValue.str ""), ("email", JsValue.str "a@b.c"),
   ("message", JsValue.num 5)]

def blankNameNumberMessageBody : String :=
  "\x7b\"name\":\"\",\"email\":\"a@b.c\",\"message\":5\x7d"

-- name holds a number while the email is blank (and so also invalid).
def numberNameBlankEmailFields : List (String × JsValue) :=
  [("name", JsValue.num 5), ("email", JsValue.str " "),
   ("message", JsValue.str "hi")]

def numberNameBlankEmailBody : String :=
  "\x7b\"name\":5,\"email\":\" \",\"message\":\"hi\"\x7d"

-- ## Lemmas on the validation chain

lemma requiredFieldsFail_str (n e m : String) :
    requiredFieldsFail (JsValue.str n) (JsValue.str e) (JsValue.str m) =
      Except.ok ((jsTrim n == "") || (jsTrim e == "") || (jsTrim m == "")) := by
  simp only [requiredFieldsFail, jsOptChainTrim, jsMissingAfterTrim]
  by_cases h1 : (jsTrim n == "") = true
  · simp [h1]
  · simp only [Bool.not_eq_true] at h1
    by_cases h2 : (jsTrim e == "") = true
    · simp [h1, h2]
    · simp only [Bool.not_eq_true] at h2
      simp [h1, h2]

lemma jsOptChainTrim_of_stringish {v : JsValue} (h : stringish v) :
    ∃ o, jsOptChainTrim v = Except.ok o := by
  rcases h with h | h | ⟨s, h⟩ <;> subst h <;> exact ⟨_, rfl⟩

lemma jsMissing_of_blankish {v : JsValue} {o : Option String} (h : blankish v)
    (ho : jsOptChainTrim v = Except.ok o) : jsMissingAfterTrim o = true := by
  rcases h with h | h | ⟨s, h, hs⟩ <;> subst h <;>
    simp only [jsOptChainTrim, Except.ok.injEq] at ho <;> subst ho
  · rfl
  · rfl
  · simp [jsMissingAfterTrim, hs]

lemma requiredFieldsFail_true {n e m : JsValue}
    (hn : stringish n) (he : stringish e) (hm : stringish m)
    (hb : blankish n ∨ blankish e ∨ blankish m) :
    requiredFieldsFail n e m = Except.ok true := by
  obtain ⟨o1, ho1⟩ := jsOptChainTrim_of_stringish hn
  obtain ⟨o2, ho2⟩ := jsOptChainTrim_of_stringish he
  obtain ⟨o3, ho3⟩ := jsOptChainTrim_of_stringish hm
  by_cases h1 : jsMissingAfterTrim o1 = true
  · simp [requiredFieldsFail, ho1, h1]
  · by_cases h2 : jsMissingAfterTrim o2 = true
    · simp [requiredFieldsFail, ho1, ho2, h1, h2]
    · rcases hb with hb | hb | hb
      · exact absurd (jsMissing_of_blankish hb ho1) h1
      · exact absurd (jsMissing_of_blankish hb ho2) h2
      · simp [requiredFieldsFail, ho1, ho2, ho3, h1, h2,
          jsMissing_of_blankish hb ho3]

lemma requiredFieldsFail_err_name {n : JsValue} (e m : JsValue)
    (h : jsOptChainTrim n = Except.error ()) :
    requiredFieldsFail n e m = Except.error () := by
  simp [requiredFieldsFail, h]

lemma requiredFieldsFail_err_email {n e : JsValue} (m : JsValue) {o : Option String}
    (hn : jsOptChainTrim n = Except.ok o) (ho : jsMissingAfterTrim o = false)
    (h : jsOptChainTrim e = Except.error ()) :
    requiredFieldsFail n e m = Except.error () := by
  simp [requiredFieldsFail, hn, ho, h]

lemma requiredFieldsFail_err_message {n e m : JsValue} {o oe : Option String}
    (hn : jsOptChainTrim n = Except.ok o) (ho : jsMissingAfterTrim o = false)
    (he : jsOptChainTrim e = Except.ok oe) (hoe : jsMissingAfterTrim oe = false)
    (h : jsOptChainTrim m = Except.error ()) :
    requiredFieldsFail n e m = Except.error () := by
  simp [requiredFieldsFail, hn, ho, he, hoe, h]

lemma jsOptChainTrim_err_of_truthyNonString {v : JsValue}
    (h : isTruthyNonString v = true) : jsOptChainTrim v = Except.error () := by
  cases v <;> simp [isTruthyNonString] at h <;> rfl

-- The handler on a payload that passes every check: it reaches
-- saveContact with the trimmed name and message, the trimmed lower-cased
-- email and the phone argument, and wraps the repository result in a
-- 200 response.
lemma handle_valid (body : String) (fields : List (String × JsValue))
    (n e m : String) (pt : Option String) (db : DbOutcome) (store : ContactStore)
    (hbody : jsTrim body ≠ "")
    (hn : getF fields "name" = JsValue.str n)
    (he : getF fields "email" = JsValue.str e)
    (hm : getF fields "message" = JsValue.str m)
    (hp : jsOptChainTrim (getF fields "phone") = Except.ok pt)
    (hnb : jsTrim n ≠ "") (heb : jsTrim e ≠ "") (hmb : jsTrim m ≠ "")
    (hemail : emailRegexTest e = true) :
    handleSubmitContact body (some (JsValue.obj fields)) db store =
      ⟨⟨200,
        (saveContact db store (jsTrim n) (jsToLower (jsTrim e)) (jsPhoneArg pt) (jsTrim m)).1.status,
        (saveContact db store (jsTrim n) (jsToLower (jsTrim e)) (jsPhoneArg pt) (jsTrim m)).1.message,
        (saveContact db store (jsTrim n) (jsToLower (jsTrim e)) (jsPhoneArg pt) (jsTrim m)).1.id⟩,
       (saveContact db store (jsTrim n) (jsToLower (jsTrim e)) (jsPhoneArg pt) (jsTrim m)).2,
       true⟩ := by
  unfold handleSubmitContact
  rw [if_neg hbody]
  simp only [destructure, hn, he, hm, hp, requiredFieldsFail_str, asString]
  have h1 : (jsTrim n == "") = false := by simp [hnb]
  have h2 : (jsTrim e == "") = false := by simp [heb]
  have h3 : (jsTrim m == "") = false := by simp [hmb]
  simp [h1, h2, h3, hemail]

-- The handler when the required-fields check fails.
lemma handle_required_400 (body : String) (fields : List (String × JsValue))
    (db : DbOutcome) (store : ContactStore)
    (hbody : jsTrim body ≠ "")
    (h : requiredFieldsFail (getF fields "name") (getF fields "email")
      (getF fields "message") = Except.ok true) :
    handleSubmitContact body (some (JsValue.obj fields)) db store =
      ⟨badRequest "Name, email, and message are required fields.", store, false⟩ := by
  unfold handleSubmitContact
  rw [if_neg hbody]
  simp only [destructure, h]

-- The handler when a `.trim()` call in the required-fields check throws.
lemma handle_validation_throw (body : String) (fields : List (String × JsValue))
    (db : DbOutcome) (store : ContactStore)
    (hbody : jsTrim body ≠ "")
    (h : requiredFieldsFail (getF fields "name") (getF fields "email")
      (getF fields "message") = Except.error ()) :
    handleSubmitContact body (some (JsValue.obj fields)) db store =
      ⟨serverError, store, false⟩ := by
  unfold handleSubmitContact
  rw [if_neg hbody]
  simp only [destructure, h]

-- The handler when the fields are present but the email fails the regex.
lemma handle_invalid_email_400 (body : String) (fields : List (String × JsValue))
    (db : DbOutcome) (store : ContactStore)
    (hbody : jsTrim body ≠ "")
    (h : requiredFieldsFail (getF fields "name") (getF fields "email")
      (getF fields "message") = Except.ok false)
    (he : emailRegexTest (asString (getF fields "email")) = false) :
    handleSubmitContact body (some (JsValue.obj fields)) db store =
      ⟨badRequest "Please enter a valid email address.", store, false⟩ := by
  unfold handleSubmitContact
  rw [if_neg hbody]
  simp only [destructure, h, he]
  simp

-- ## Lemmas on the email regex

lemma splitAtChar_none {c : Char} {cs : List Char} (h : ∀ x ∈ cs, x ≠ c) :
    splitAtChar c cs = none := by
  induction cs with
  | nil => rfl
  | cons x xs ih =>
    unfold splitAtChar
    rw [if_neg (h x (List.mem_cons_self x xs)),
      ih (fun y hy => h y (List.mem_cons_of_mem x hy))]

lemma splitAtChar_first {c : Char} {l : List Char} (r : List Char) (h : c ∉ l) :
    splitAtChar c (l ++ c :: r) = some (l, r) := by
  induction l with
  | nil => simp [splitAtChar]
  | cons x xs ih =>
    have hx : ¬ x = c := fun he => h (he ▸ List.mem_cons_self x xs)
    have ihx := ih (fun hm => h (List.mem_cons_of_mem x hm))
    simp only [List.cons_append, splitAtChar, if_neg hx, List.append_eq, ihx]

lemma splitAtChar_decomp {c : Char} {cs l r : List Char}
    (h : splitAtChar c cs = some (l, r)) : cs = l ++ c :: r := by
  induction cs generalizing l r with
  | nil => simp [splitAtChar] at h
  | cons x xs ih =>
    by_cases hx : x = c
    · subst hx
      have h' : some (([] : List Char), xs) = some (l, r) := by
        rw [← h]
        unfold splitAtChar
        rw [if_pos rfl]
      simp only [Option.some.injEq, Prod.mk.injEq] at h'
      rw [← h'.1, ← h'.2]
      rfl
    · simp only [splitAtChar, if_neg hx] at h
      cases hsp : splitAtChar c xs with
      | none => rw [hsp] at h; simp at h
      | some p =>
        obtain ⟨l2, r2⟩ := p
        rw [hsp] at h
        simp only [Option.some.injEq, Prod.mk.injEq] at h
        rw [← h.1, ← h.2]
        simp [ih hsp]

lemma emailRegexTest_false_noAt {e : String} (h : ∀ c ∈ e.toList, c ≠ '@') :
    emailRegexTest e = false := by
  unfold emailRegexTest
  rw [splitAtChar_none h]

lemma emailRegexTest_false_noDot {e : String}
    (h : ∃ l r, e.toList = l ++ '@' :: r ∧ '@' ∉ l ∧ '.' ∉ r) :
    emailRegexTest e = false := by
  obtain ⟨l, r, hd, hl, hr⟩ := h
  unfold emailRegexTest
  rw [hd, splitAtChar_first r hl]
  have hdot : hasInnerDot r = false := by
    cases r with
    | nil => rfl
    | cons x rt =>
      simp only [hasInnerDot, decide_eq_false_iff_not]
      intro hmem
      exact hr (List.mem_cons_of_mem x (List.mem_of_mem_dropLast hmem))
  simp [hdot]

lemma emailRegexTest_false_ws {e : String} (h : ∃ c ∈ e.toList, c.isWhitespace) :
    emailRegexTest e = false := by
  obtain ⟨c, hc, hw⟩ := h
  unfold emailRegexTest
  cases hsp : splitAtChar '@' e.toList with
  | none => rfl
  | some p =>
    obtain ⟨l, r⟩ := p
    have hd := splitAtChar_decomp hsp
    rw [hd] at hc
    have hca : c ≠ '@' := fun he => absurd hw (by subst he; decide)
    rw [List.mem_append] at hc
    rcases hc with hc | hc
    · have hall : l.all okChar = false := by
        rw [List.all_eq_false]
        exact ⟨c, hc, by simp [okChar, hw]⟩
      simp [hall]
    · rcases List.mem_cons.mp hc with hc | hc
      · exact absurd hc hca
      · have hall : r.all okChar = false := by
          rw [List.all_eq_false]
          exact ⟨c, hc, by simp [okChar, hw]⟩
        simp [hall]

/-- C1 counterexample: the payload name "a", email " a@b.c ", message "m"
has all three fields non-blank after trimming and its trimmed email
matches the shape rule, yet the handler answers 400 "Please enter a valid
email address." and never reaches the repository: the code tests the
regex on the untrimmed email. -/
theorem c1_counterexample :
    jsTrim " a@b.c " = "a@b.c" ∧
    emailRegexTest (jsTrim " a@b.c ") = true ∧
    handleSubmitContact paddedEmailBody (some (JsValue.obj paddedEmailFields))
        DbOutcome.ok [] =
      ⟨badRequest "Please enter a valid email address.", [], false⟩ := by
  exact ⟨by decide, by decide, by decide⟩

/-- C1 (corrected): for every POST to /submit-contact whose JSON body has
name, email and message non-blank after trimming, whose email as
submitted (untrimmed) matches the basic shape rule, and whose phone field
is absent, null or a string, the handler reaches the repository, and when
the insert succeeds the response has status "success" and the positive id
assigned by the store, the stored row holding the trimmed name and
message and the trimmed, lower-cased email. -/
theorem c1_valid_submission_saved (body : String)
    (fields : List (String × JsValue)) (n e m : String) (pt : Option String)
    (store : ContactStore)
    (hbody : jsTrim body ≠ "")
    (hn : getF fields "name" = JsValue.str n)
    (he : getF fields "email" = JsValue.str e)
    (hm : getF fields "message" = JsValue.str m)
    (hp : jsOptChainTrim (getF fields "phone") = Except.ok pt)
    (hnb : jsTrim n ≠ "") (heb : jsTrim e ≠ "") (hmb : jsTrim m ≠ "")
    (hemail : emailRegexTest e = true) :
    handleSubmitContact body (some (JsValue.obj fields)) DbOutcome.ok store =
      ⟨⟨200, "success", "Thank you! Your message has been sent successfully.",
        some (store.length + 1)⟩,
       store ++ [⟨store.length + 1, jsTrim n, jsToLower (jsTrim e),
         jsPhoneArg pt, jsTrim m⟩],
       true⟩ ∧
    0 < store.length + 1 := by
  refine ⟨?_, Nat.succ_pos _⟩
  rw [handle_valid body fields n e m pt DbOutcome.ok store hbody hn he hm hp
    hnb heb hmb hemail]
  simp [saveContact]

/-- C1 witness: the concrete valid payload is stored with id 1 and the
response reports success. -/
theorem c1_witness :
    handleSubmitContact sampleBody (some (JsValue.obj validFields))
        DbOutcome.ok [] =
      ⟨⟨200, "success", "Thank you! Your message has been sent successfully.",
        some 1⟩,
       [⟨1, "Jo", "jo@example.com", none, "hi"⟩], true⟩ :=
  ((c1_valid_submission_saved sampleBody validFields "Jo" "jo@example.com" "hi"
      none [] (by decide) rfl rfl rfl rfl (by decide) (by decide) (by decide)
      (by decide)).1).trans (by decide)

/-- C2 counterexample: in the payload with name 5 and no email field the
claim demands the 400 required-fields response, but the code evaluates
name?.trim() first, trim on the number throws, and the caught error
yields the generic 500 instead. -/
theorem c2_counterexample :
    getF numberNameFields "email" = JsValue.undefined ∧
    handleSubmitContact numberNameBody (some (JsValue.obj numberNameFields))
        DbOutcome.ok [] = ⟨serverError, [], false⟩ ∧
    serverError.httpStatus = 500 := by
  exact ⟨rfl, by decide, rfl⟩

/-- C2 (corrected): for every POST payload in which each of name, email
and message is absent, null or a string, and at least one of the three is
absent, null or blank after trimming, the response is HTTP 400 with
status "error" and message "Name, email, and message are required
fields.", and the repository is not called. -/
theorem c2_missing_fields_400 (body : String) (fields : List (String × JsValue))
    (db : DbOutcome) (store : ContactStore)
    (hbody : jsTrim body ≠ "")
    (hn : stringish (getF fields "name")) (he : stringish (getF fields "email"))
    (hm : stringish (getF fields "message"))
    (hb : blankish (getF fields "name") ∨ blankish (getF fields "email") ∨
      blankish (getF fields "message")) :
    handleSubmitContact body (some (JsValue.obj fields)) db store =
      ⟨badRequest "Name, email, and message are required fields.", store, false⟩ :=
  handle_required_400 body fields db store hbody (requiredFieldsFail_true hn he hm hb)

/-- C2 witness: the empty JSON object is answered with the 400
required-fields response and the repository is not called. -/
theorem c2_witness :
    handleSubmitContact "\x7b\x7d" (some (JsValue.obj [])) DbOutcome.ok [] =
      ⟨badRequest "Name, email, and message are required fields.", [], false⟩ :=
  c2_missing_fields_400 "\x7b\x7d" [] DbOutcome.ok [] (by decide)
    (Or.inl rfl) (Or.inl rfl) (Or.inl rfl) (Or.inl (Or.inl rfl))

/-- C3 (confirmed): for every POST payload whose name, email and message
are non-blank strings but whose email is syntactically invalid — no '@',
or no '.' after the '@', or containing whitespace — the response is HTTP
400 with message "Please enter a valid email address." and the
repository is not called. -/
theorem c3_invalid_email_400 (body : String) (fields : List (String × JsValue))
    (n e m : String) (db : DbOutcome) (store : ContactStore)
    (hbody : jsTrim body ≠ "")
    (hn : getF fields "name" = JsValue.str n)
    (he : getF fields "email" = JsValue.str e)
    (hm : getF fields "message" = JsValue.str m)
    (hnb : jsTrim n ≠ "") (heb : jsTrim e ≠ "") (hmb : jsTrim m ≠ "")
    (hinv : (∀ c ∈ e.toList, c ≠ '@') ∨
      (∃ l r, e.toList = l ++ '@' :: r ∧ '@' ∉ l ∧ '.' ∉ r) ∨
      (∃ c ∈ e.toList, c.isWhitespace)) :
    handleSubmitContact body (some (JsValue.obj fields)) db store =
      ⟨badRequest "Please enter a valid email address.", store, false⟩ := by
  have hfalse : emailRegexTest e = false := by
    rcases hinv with h | h | h
    · exact emailRegexTest_false_noAt h
    · exact emailRegexTest_false_noDot h
    · exact emailRegexTest_false_ws h
  apply handle_invalid_email_400 body fields db store hbody
  · rw [hn, he, hm, requiredFieldsFail_str]
    have h1 : (jsTrim n == "") = false := by simp [hnb]
    have h2 : (jsTrim e == "") = false := by simp [heb]
    have h3 : (jsTrim m == "") = false := by simp [hmb]
    rw [h1, h2, h3]
    rfl
  · rw [he]
    exact hfalse

/-- C3 witness: a payload whose email "abc" has no '@' is answered with
the 400 invalid-email response. -/
theorem c3_witness :
    handleSubmitContact "\x7b\"name\":\"a\",\"email\":\"abc\",\"message\":\"m\"\x7d"
        (some (JsValue.obj [("name", JsValue.str "a"),
          ("email", JsValue.str "abc"), ("message", JsValue.str "m")]))
        DbOutcome.ok [] =
      ⟨badRequest "Please enter a valid email address.", [], false⟩ :=
  c3_invalid_email_400 "\x7b\"name\":\"a\",\"email\":\"abc\",\"message\":\"m\"\x7d"
    [("name", JsValue.str "a"), ("email", JsValue.str "abc"),
      ("message", JsValue.str "m")]
    "a" "abc" "m" DbOutcome.ok [] (by decide) rfl rfl rfl (by decide)
    (by decide) (by decide) (Or.inl (by decide))

/-- C4 (confirmed): for every input and every outcome of the underlying
insert query — success, uniqueness violation, or any other failure —
saveContact returns a result whose status field is "success" or "error";
being a total function of the outcome, nothing escapes its boundary. -/
theorem c4_saveContact_status_total (db : DbOutcome) (store : ContactStore)
    (name email : String) (phone : Option String) (message : String) :
    (saveContact db store name email phone message).1.status = "success" ∨
    (saveContact db store name email phone message).1.status = "error" := by
  cases db with
  | ok => exact Or.inl rfl
  | uniqueViolation c =>
    right
    simp only [saveContact]
    by_cases h1 : optContains c "email" = true
    · rw [if_pos h1]
    · rw [if_neg h1]
      by_cases h2 : optContains c "phone" = true
      · rw [if_pos h2]
      · rw [if_neg h2]
  | otherError => exact Or.inr rfl

/-- C5 (confirmed): a POST that passes validation and whose insert fails
with a uniqueness violation (code 23505) on a constraint whose name
contains "email" is answered with HTTP 200 and the body
status "error" / "This email address has already been used. Please use a
different email.". -/
theorem c5_unique_email_violation_200 (body : String)
    (fields : List (String × JsValue)) (n e m : String) (pt : Option String)
    (store : ContactStore) (c : String)
    (hbody : jsTrim body ≠ "")
    (hn : getF fields "name" = JsValue.str n)
    (he : getF fields "email" = JsValue.str e)
    (hm : getF fields "message" = JsValue.str m)
    (hp : jsOptChainTrim (getF fields "phone") = Except.ok pt)
    (hnb : jsTrim n ≠ "") (heb : jsTrim e ≠ "") (hmb : jsTrim m ≠ "")
    (hemail : emailRegexTest e = true)
    (hc : strIncludes c "email" = true) :
    handleSubmitContact body (some (JsValue.obj fields))
        (DbOutcome.uniqueViolation (some c)) store =
      ⟨⟨200, "error",
        "This email address has already been used. Please use a different email.",
        none⟩, store, true⟩ := by
  rw [handle_valid body fields n e m pt _ store hbody hn he hm hp hnb heb hmb hemail]
  simp [saveContact, optContains, hc]

/-- C5 witness: a concrete valid payload whose insert hits the unique
email constraint is answered 200 with the email-already-used message. -/
theorem c5_witness :
    handleSubmitContact sampleBody (some (JsValue.obj validFields))
        (DbOutcome.uniqueViolation (some "contacts_email_key")) [] =
      ⟨⟨200, "error",
        "This email address has already been used. Please use a different email.",
        none⟩, [], true⟩ :=
  c5_unique_email_violation_200 sampleBody validFields "Jo" "jo@example.com" "hi"
    none [] "contacts_email_key" (by decide) rfl rfl rfl rfl (by decide)
    (by decide) (by decide) (by decide) (by decide)

/-- C6 (confirmed): a POST whose buffered body is blank is answered 400
with "No data received. Please try again."; a non-blank body on which
JSON.parse throws is caught by the outer handler and answered with the
generic 500 server error. -/
theorem c6_empty_and_unparseable_body (body : String) (parsed : Option JsValue)
    (db : DbOutcome) (store : ContactStore) :
    (jsTrim body = "" →
      handleSubmitContact body parsed db store =
        ⟨badRequest "No data received. Please try again.", store, false⟩ ∧
      (badRequest "No data received. Please try again.").httpStatus = 400) ∧
    (jsTrim body ≠ "" → parsed = none →
      handleSubmitContact body parsed db store = ⟨serverError, store, false⟩ ∧
      serverError.httpStatus = 500) := by
  constructor
  · intro h
    refine ⟨?_, rfl⟩
    unfold handleSubmitContact
    rw [if_pos h]
  · intro h hp
    subst hp
    refine ⟨?_, rfl⟩
    unfold handleSubmitContact
    rw [if_neg h]

/-- C6 witness: the literal empty body gives the 400 no-data response, and
a non-blank unparseable body gives the 500 server error. -/
theorem c6_witness :
    handleSubmitContact "" none DbOutcome.ok [] =
      ⟨badRequest "No data received. Please try again.", [], false⟩ ∧
    handleSubmitContact "not json" none DbOutcome.ok [] =
      ⟨serverError, [], false⟩ :=
  ⟨((c6_empty_and_unparseable_body "" none DbOutcome.ok []).1 rfl).1,
   ((c6_empty_and_unparseable_body "not json" none DbOutcome.ok []).2
      (by decide) rfl).1⟩

/-- C9 counterexample: in the payload with blank name and numeric message
the message field is present with a truthy non-string value, yet the
handler answers the 400 required-fields response, not 500: the blank name
short-circuits the validation before message.trim() is evaluated. -/
theorem c9_counterexample :
    isTruthyNonString (getF blankNameNumberMessageFields "message") = true ∧
    handleSubmitContact blankNameNumberMessageBody
        (some (JsValue.obj blankNameNumberMessageFields)) DbOutcome.ok [] =
      ⟨badRequest "Name, email, and message are required fields.", [], false⟩ ∧
    (badRequest "Name, email, and message are required fields.").httpStatus ≠ 500 := by
  exact ⟨by decide, by decide, by decide⟩

/-- C9 (corrected): a truthy non-string field value makes the handler
answer the generic 500 — the trim call throws and is caught by the outer
handler — provided every field checked before it (in the order name,
email, message) is a string that is non-blank after trimming. -/
theorem c9_nonstring_field_500 (body : String) (fields : List (String × JsValue))
    (db : DbOutcome) (store : ContactStore)
    (hbody : jsTrim body ≠ "") :
    (isTruthyNonString (getF fields "name") = true →
      handleSubmitContact body (some (JsValue.obj fields)) db store =
        ⟨serverError, store, false⟩) ∧
    (∀ n : String, getF fields "name" = JsValue.str n → jsTrim n ≠ "" →
      isTruthyNonString (getF fields "email") = true →
      handleSubmitContact body (some (JsValue.obj fields)) db store =
        ⟨serverError, store, false⟩) ∧
    (∀ n e : String, getF fields "name" = JsValue.str n → jsTrim n ≠ "" →
      getF fields "email" = JsValue.str e → jsTrim e ≠ "" →
      isTruthyNonString (getF fields "message") = true →
      handleSubmitContact body (some (JsValue.obj fields)) db store =
        ⟨serverError, store, false⟩) := by
  refine ⟨?_, ?_, ?_⟩
  · intro ht
    exact handle_validation_throw body fields db store hbody
      (requiredFieldsFail_err_name _ _ (jsOptChainTrim_err_of_truthyNonString ht))
  · intro n hn hnb ht
    have h1 : jsOptChainTrim (getF fields "name") = Except.ok (some (jsTrim n)) := by
      rw [hn]
      rfl
    have h2 : jsMissingAfterTrim (some (jsTrim n)) = false := by
      simp [jsMissingAfterTrim, hnb]
    exact handle_validation_throw body fields db store hbody
      (requiredFieldsFail_err_email _ h1 h2 (jsOptChainTrim_err_of_truthyNonString ht))
  · intro n e hn hnb he heb ht
    have h1 : jsOptChainTrim (getF fields "name") = Except.ok (some (jsTrim n)) := by
      rw [hn]
      rfl
    have h2 : jsMissingAfterTrim (some (jsTrim n)) = false := by
      simp [jsMissingAfterTrim, hnb]
    have h3 : jsOptChainTrim (getF fields "email") = Except.ok (some (jsTrim e)) := by
      rw [he]
      rfl
    have h4 : jsMissingAfterTrim (some (jsTrim e)) = false := by
      simp [jsMissingAfterTrim, heb]
    exact handle_validation_throw body fields db store hbody
      (requiredFieldsFail_err_message h1 h2 h3 h4
        (jsOptChainTrim_err_of_truthyNonString ht))

/-- C9 witness: a payload whose name is the number 7 is answered with the
generic 500 server error. -/
theorem c9_witness :
    handleSubmitContact "\x7b\"name\":7\x7d"
        (some (JsValue.obj [("name", JsValue.num 7)])) DbOutcome.ok [] =
      ⟨serverError, [], false⟩ :=
  (c9_nonstring_field_500 "\x7b\"name\":7\x7d" [("name", JsValue.num 7)]
      DbOutcome.ok [] (by decide)).1 (by decide)

/-- C10 counterexample: in the payload with name 5, blank email " " and
message "hi" the email is blank and syntactically invalid, so the claim
demands the 400 required-fields response; the code instead throws on
name?.trim() and answers the generic 500. -/
theorem c10_counterexample :
    blankish (getF numberNameBlankEmailFields "email") ∧
    emailRegexTest (asString (getF numberNameBlankEmailFields "email")) = false ∧
    handleSubmitContact numberNameBlankEmailBody
        (some (JsValue.obj numberNameBlankEmailFields)) DbOutcome.ok [] =
      ⟨serverError, [], false⟩ ∧
    serverError.httpStatus ≠ 400 := by
  exact ⟨Or.inr (Or.inr ⟨" ", rfl, by decide⟩), by decide, by decide, by decide⟩

/-- C10 (corrected): provided name, email and message are each absent,
null or strings, the required-fields check strictly precedes the
email-shape check: when at least one field is missing or blank and the
email is also syntactically invalid, the response carries the
required-fields message, never the invalid-email message. -/
theorem c10_required_precedes_email (body : String)
    (fields : List (String × JsValue)) (db : DbOutcome) (store : ContactStore)
    (hbody : jsTrim body ≠ "")
    (hn : stringish (getF fields "name")) (he : stringish (getF fields "email"))
    (hm : stringish (getF fields "message"))
    (hb : blankish (getF fields "name") ∨ blankish (getF fields "email") ∨
      blankish (getF fields "message"))
    (hinv : emailRegexTest (asString (getF fields "email")) = false) :
    handleSubmitContact body (some (JsValue.obj fields)) db store =
      ⟨badRequest "Name, email, and message are required fields.", store, false⟩ ∧
    (badRequest "Name, email, and message are required fields.").message ≠
      "Please enter a valid email address." :=
  ⟨handle_required_400 body fields db store hbody
      (requiredFieldsFail_true hn he hm hb), by decide⟩

/-- C10 witness: blank name and invalid email "bad" produce the 400
required-fields response, not the invalid-email one. -/
theorem c10_witness :
    handleSubmitContact "\x7b\"name\":\"\",\"email\":\"bad\"\x7d"
        (some (JsValue.obj [("name", JsValue.str ""), ("email", JsValue.str "bad")]))
        DbOutcome.ok [] =
      ⟨badRequest "Name, email, and message are required fields.", [], false⟩ :=
  (c10_required_precedes_email "\x7b\"name\":\"\",\"email\":\"bad\"\x7d"
      [("name", JsValue.str ""), ("email", JsValue.str "bad")] DbOutcome.ok []
      (by decide) (Or.inr (Or.inr ⟨"", rfl⟩)) (Or.inr (Or.inr ⟨"bad", rfl⟩))
      (Or.inl rfl) (Or.inl (Or.inr (Or.inr ⟨"", rfl, rfl⟩))) (by decide)).1

/-- C7 counterexample: with the environment port "4000" the retry listens
on 40001 — JavaScript + concatenates the string "4000" with 1 — not on
the numeric 4001 the claim asserts. -/
theorem c7_counterexample :
    effectiveRetryPort (some "4000") ≠ some 4001 ∧
    effectiveRetryPort (some "4000") = some 40001 := by
  exact ⟨by decide, by decide⟩

/-- C7 (corrected): when the environment port is unset the retry listens
on 3001 (numeric 3000 + 1); when the environment provides a numeric
string p the retry listen argument is the string p followed by "1", so
the retry port is 10·p + 1. -/
theorem c7_retry_port :
    effectiveRetryPort none = some 3001 ∧
    ∀ (s : String) (p : Nat), parsePort s = some p →
      effectiveRetryPort (some s) = some (10 * p + 1) := by
  refine ⟨rfl, ?_⟩
  intro s p hp
  by_cases hcond : s.data ≠ [] ∧ s.data.all Char.isDigit
  case neg =>
    unfold parsePort at hp
    rw [if_neg hcond] at hp
    exact absurd hp (by simp)
  case pos =>
    obtain ⟨hne, hdig⟩ := hcond
    have hp' : s.data.foldl (fun n c => n * 10 + (c.toNat - '0'.toNat)) 0 = p := by
      unfold parsePort at hp
      rw [if_pos ⟨hne, hdig⟩] at hp
      exact Option.some.inj hp
    have hs0 : ¬ s = "" := fun h => hne (by rw [h])
    have hdata : (s ++ "1").data = s.data ++ ['1'] := by
      obtain ⟨l⟩ := s
      rfl
    have hc2 : (s.data ++ ['1'] ≠ []) ∧ (s.data ++ ['1']).all Char.isDigit := by
      refine ⟨by simp, ?_⟩
      rw [List.all_append]
      simp [hdig]
    have hcp : configuredPort (some s) = JsPort.str s := if_neg hs0
    have hrp : retryPort (some s) = JsPort.str (s ++ "1") := by
      unfold retryPort
      rw [hcp]
    unfold effectiveRetryPort
    rw [hrp]
    show parsePort (s ++ "1") = some (10 * p + 1)
    unfold parsePort
    rw [hdata, if_pos hc2, List.foldl_append]
    simp only [List.foldl_cons, List.foldl_nil]
    rw [hp']
    have h1 : '1'.toNat - '0'.toNat = 1 := by decide
    rw [h1, Nat.mul_comm]

/-- C7 witness: environment port "3000" retries on 30001. -/
theorem c7_witness : effectiveRetryPort (some "3000") = some 30001 :=
  (c7_retry_port.2 "3000" 3000 (by decide)).trans (by decide)

-- ## Lemmas on the schema initializer

lemma createIndex_table (s : DbState) (n c : String) :
    (createIndexIfNotExists s n c).table = s.table := by
  unfold createIndexIfNotExists
  split
  · rfl
  · split
    · rfl
    · split
      · rfl
      · rfl

lemma createIndex_noop (s : DbState) (n c : String)
    (h : s.indexes.contains n = true) : createIndexIfNotExists s n c = s := by
  unfold createIndexIfNotExists
  rw [if_pos h]

lemma createIndex_none (s : DbState) (n c : String)
    (h : s.table = none) : createIndexIfNotExists s n c = s := by
  unfold createIndexIfNotExists
  rw [h]
  by_cases hc : s.indexes.contains n = true
  · rw [if_pos hc]
  · rw [if_neg hc]

lemma createIndex_nocol (s : DbState) (cols : List String) (n c : String)
    (ht : s.table = some cols) (hc : cols.contains c = false) :
    createIndexIfNotExists s n c = s := by
  unfold createIndexIfNotExists
  rw [ht]
  by_cases h : s.indexes.contains n = true
  · rw [if_pos h]
  · rw [if_neg h]
    show (if cols.contains c = true
      then ({ table := some cols, indexes := s.indexes ++ [n] } : DbState) else s) = s
    rw [if_neg (by rw [hc]; exact Bool.false_ne_true)]

lemma createIndex_adds (s : DbState) (cols : List String) (n c : String)
    (ht : s.table = some cols) (hc : cols.contains c = true)
    (h : s.indexes.contains n = false) :
    createIndexIfNotExists s n c = { s with indexes := s.indexes ++ [n] } := by
  unfold createIndexIfNotExists
  rw [ht, if_neg (by rw [h]; exact Bool.false_ne_true)]
  show (if cols.contains c = true
    then ({ table := some cols, indexes := s.indexes ++ [n] } : DbState) else s) =
    { table := some cols, indexes := s.indexes ++ [n] }
  rw [if_pos hc]

lemma createIndex_contains_of_col (s : DbState) (cols : List String) (n c : String)
    (ht : s.table = some cols) (hc : cols.contains c = true) :
    (createIndexIfNotExists s n c).indexes.contains n = true := by
  by_cases h : s.indexes.contains n = true
  · rw [createIndex_noop s n c h]
    exact h
  · have h0 : s.indexes.contains n = false := by simpa using h
    rw [createIndex_adds s cols n c ht hc h0]
    simp

lemma createIndex_preserve (s : DbState) (n c n2 : String)
    (h : s.indexes.contains n2 = true) :
    (createIndexIfNotExists s n c).indexes.contains n2 = true := by
  unfold createIndexIfNotExists
  split
  · exact h
  · split
    · exact h
    · split
      · have h0 : n2 ∈ s.indexes := by simpa using h
        simp [h0]
      · exact h

-- Attempting the same index creation twice changes nothing the second
-- time: either the index was created (or already present) and the retry
-- is a no-op, or the table/column is still missing and it fails again.
lemma createIndex_idem (s : DbState) (n c : String) :
    createIndexIfNotExists (createIndexIfNotExists s n c) n c =
      createIndexIfNotExists s n c := by
  by_cases h : s.indexes.contains n = true
  · rw [createIndex_noop s n c h, createIndex_noop s n c h]
  · have h0 : s.indexes.contains n = false := by simpa using h
    cases ht : s.table with
    | none =>
      rw [createIndex_none s n c ht, createIndex_none s n c ht]
    | some cols =>
      by_cases hc : cols.contains c = true
      · rw [createIndex_adds s cols n c ht hc h0]
        exact createIndex_noop _ n c (by simp)
      · have hc0 : cols.contains c = false := by simpa using hc
        rw [createIndex_nocol s cols n c ht hc0, createIndex_nocol s cols n c ht hc0]

-- Re-attempting an index creation after some other index step changes
-- nothing: if the first attempt succeeded (or the index pre-existed) the
-- retry is a no-op, and if it failed on a missing table/column it fails
-- again, the intervening step having left the table untouched.
lemma createIndex_stable (s : DbState) (n c n2 c2 : String) :
    createIndexIfNotExists (createIndexIfNotExists
        (createIndexIfNotExists s n c) n2 c2) n c =
      createIndexIfNotExists (createIndexIfNotExists s n c) n2 c2 := by
  by_cases h : (createIndexIfNotExists s n c).indexes.contains n = true
  · exact createIndex_noop _ n c (createIndex_preserve _ n2 c2 n h)
  · cases ht : s.table with
    | none =>
      rw [createIndex_none s n c ht]
      exact createIndex_none _ n c ((createIndex_table s n2 c2).trans ht)
    | some cols =>
      by_cases hc : cols.contains c = true
      · exact absurd (createIndex_contains_of_col s cols n c ht hc) h
      · have hc0 : cols.contains c = false := by simpa using hc
        rw [createIndex_nocol s cols n c ht hc0]
        exact createIndex_nocol _ cols n c ((createIndex_table s n2 c2).trans ht) hc0

lemma checkTableStructure_some (s : DbState) (cols : List String)
    (h : s.table = some cols) : checkTableStructure s = cols := by
  unfold checkTableStructure
  rw [h]

lemma createTableIfNotExists_some (s : DbState) (cols : List String)
    (h : s.table = some cols) : createTableIfNotExists s = s := by
  unfold createTableIfNotExists
  rw [h]

lemma createTable_else (s : DbState)
    (h : (!(checkTableStructure s).contains "created_at" &&
      decide (0 < (checkTableStructure s).length)) = false) :
    createTable s =
      (createIndexIfNotExists (createIndexIfNotExists (createTableIfNotExists s)
        "idx_contacts_email" "email") "idx_contacts_created_at" "created_at",
       false) := by
  unfold createTable
  rw [if_neg (by rw [h]; exact Bool.false_ne_true)]

lemma createTable_then (s s1 : DbState)
    (h : (!(checkTableStructure s).contains "created_at" &&
      decide (0 < (checkTableStructure s).length)) = true)
    (ha : addCreatedAt s = Except.ok s1) :
    createTable s =
      (createIndexIfNotExists (createIndexIfNotExists s1 "idx_contacts_email"
        "email") "idx_contacts_created_at" "created_at", false) := by
  unfold createTable
  rw [if_pos h, ha]

-- Every run of the initializer is the two index attempts applied to a
-- state whose table exists, holds created_at or is empty, and keeps the
-- starting indexes; the outer catch never fires, and an absent table is
-- created with the full expected schema.
lemma createTable_shape (t : Option (List String)) (idx : List String) :
    ∃ cols1, createTable ⟨t, idx⟩ =
      (createIndexIfNotExists (createIndexIfNotExists ⟨some cols1, idx⟩
        "idx_contacts_email" "email") "idx_contacts_created_at" "created_at",
       false) ∧
      (cols1.contains "created_at" = true ∨ cols1 = []) ∧
      (t = none → cols1 = expectedColumns) := by
  cases t with
  | none =>
    refine ⟨expectedColumns, ?_, Or.inl (by decide), fun _ => rfl⟩
    exact createTable_else ⟨none, idx⟩ rfl
  | some cols =>
    by_cases hc : cols.contains "created_at" = true
    · have hcond : (!(checkTableStructure ⟨some cols, idx⟩).contains "created_at" &&
          decide (0 < (checkTableStructure ⟨some cols, idx⟩).length)) = false := by
        show (!cols.contains "created_at" && decide (0 < cols.length)) = false
        rw [hc]
        rfl
      refine ⟨cols, ?_, Or.inl hc, fun h => Option.noConfusion h⟩
      exact createTable_else ⟨some cols, idx⟩ hcond
    · by_cases h0 : cols = []
      · subst h0
        refine ⟨[], ?_, Or.inr rfl, fun h => Option.noConfusion h⟩
        exact createTable_else ⟨some [], idx⟩ rfl
      · have hcb : cols.contains "created_at" = false := by simpa using hc
        have hcond : (!(checkTableStructure ⟨some cols, idx⟩).contains "created_at" &&
            decide (0 < (checkTableStructure ⟨some cols, idx⟩).length)) = true := by
          show (!cols.contains "created_at" && decide (0 < cols.length)) = true
          rw [hcb, decide_eq_true (List.length_pos.mpr h0)]
          rfl
        have ha : addCreatedAt ⟨some cols, idx⟩ =
            Except.ok ⟨some (cols ++ ["created_at"]), idx⟩ := by
          show (if cols.contains "created_at" = true
            then (Except.error () : Except Unit DbState)
            else Except.ok ⟨some (cols ++ ["created_at"]), idx⟩) =
            Except.ok ⟨some (cols ++ ["created_at"]), idx⟩
          rw [if_neg hc]
        refine ⟨cols ++ ["created_at"], ?_, Or.inl (by simp),
          fun h => Option.noConfusion h⟩
        exact createTable_then _ _ hcond ha

/-- C8 counterexample: starting from a legacy table holding only the
columns id and name, one run of the initializer adds only created_at;
the expected email column is still absent afterwards, so the table does
not end with one copy of each expected column, and the email index is
not created either: CREATE INDEX on the missing email column errors and
the inner catch only logs it. -/
theorem c8_counterexample :
    (createTable ⟨some ["id", "name"], []⟩).1.table =
      some ["id", "name", "created_at"] ∧
    "email" ∈ expectedColumns ∧
    ¬ "email" ∈ ["id", "name", "created_at"] ∧
    (createTable ⟨some ["id", "name"], []⟩).1.indexes.contains
      "idx_contacts_email" = false ∧
    (createTable ⟨some ["id", "name"], []⟩).1.indexes.contains
      "idx_contacts_created_at" = true := by
  exact ⟨by decide, by decide, by decide, by decide, by decide⟩

/-- C8 (corrected): the initializer is idempotent — for every starting
state a second run reproduces the state of the first run exactly — and no
run raises an error out of the initializer (failed index creations are
caught and logged inside it); when the table starts absent it ends with
exactly one copy of each expected column and with both indexes.  A
pre-existing partial table only ever gains created_at, and an index is
only created when its column exists, so on a partial table missing
expected columns are not restored and the email index can stay absent. -/
theorem c8_idempotent (s : DbState) :
    createTable (createTable s).1 = ((createTable s).1, false) ∧
    (createTable s).2 = false ∧
    (s.table = none → (createTable s).1.table = some expectedColumns ∧
      (createTable s).1.indexes.contains "idx_contacts_email" = true ∧
      (createTable s).1.indexes.contains "idx_contacts_created_at" = true) := by
  obtain ⟨t, idx⟩ := s
  obtain ⟨cols1, hshape, hcc, hnone⟩ := createTable_shape t idx
  have hS : (createTable ⟨t, idx⟩).1 =
      createIndexIfNotExists (createIndexIfNotExists ⟨some cols1, idx⟩
        "idx_contacts_email" "email") "idx_contacts_created_at" "created_at" := by
    rw [hshape]
  have hok : (createTable ⟨t, idx⟩).2 = false := by
    rw [hshape]
  have hStable : (createTable ⟨t, idx⟩).1.table = some cols1 := by
    rw [hS, createIndex_table, createIndex_table]
  refine ⟨?_, hok, ?_⟩
  · have hcond : (!(checkTableStructure (createTable ⟨t, idx⟩).1).contains
        "created_at" &&
        decide (0 < (checkTableStructure (createTable ⟨t, idx⟩).1).length)) =
        false := by
      rw [checkTableStructure_some _ cols1 hStable]
      rcases hcc with hcc | hcc
      · rw [hcc]
        rfl
      · subst hcc
        rfl
    rw [createTable_else _ hcond, createTableIfNotExists_some _ cols1 hStable, hS,
      createIndex_stable, createIndex_stable]
  · intro h
    have hc1 := hnone h
    subst hc1
    refine ⟨hStable, ?_, ?_⟩
    · rw [hS]
      exact createIndex_preserve _ _ _ _
        (createIndex_contains_of_col ⟨some expectedColumns, idx⟩ expectedColumns _ _
          rfl (by decide))
    · rw [hS]
      exact createIndex_contains_of_col _ expectedColumns _ _
        ((createIndex_table ⟨some expectedColumns, idx⟩ "idx_contacts_email"
          "email").trans rfl) (by decide)

/-- C8 witness: starting from an empty database, a second run of the
initializer reproduces the state of the first run, the table holds
exactly the expected columns, and both indexes exist. -/
theorem c8_witness :
    createTable (createTable ⟨none, []⟩).1 = ((createTable ⟨none, []⟩).1, false) ∧
    (createTable ⟨none, []⟩).1.table = some expectedColumns ∧
    (createTable ⟨none, []⟩).1.indexes.contains "idx_contacts_email" = true ∧
    (createTable ⟨none, []⟩).1.indexes.contains "idx_contacts_created_at" = true :=
  ⟨(c8_idempotent ⟨none, []⟩).1,
   ((c8_idempotent ⟨none, []⟩).2.2 rfl).1,
   ((c8_idempotent ⟨none, []⟩).2.2 rfl).2.1,
   ((c8_idempotent ⟨none, []⟩).2.2 rfl).2.2⟩

end ContactServer
